import Mathlib

/-!
Verification development for the groq-go chat-completion client
(`client.go`).  The Go source is shallowly embedded: structs become Lean
structures, `float64` becomes an explicit type distinguishing finite
values from NaN/infinities (Go's `json.Marshal` rejects the latter),
JSON documents become an inductive `Json` type, fallible operations
return `Except`, and the single HTTP round-trip is modelled by passing
the transport's behaviour as a function from requests to results.
Go's `encoding/json` field matching is modelled with exact (not
case-insensitive) key comparison, which suffices for the field names
exercised here.  `http.NewRequest` with the constant method "POST" is
modelled as always succeeding (it can only fail on an unparsable URL,
which none of the claims concern).
-/

namespace Groq

/-- Model of a Go `float64` value as far as JSON serialization is
concerned: either a finite value (represented exactly as a rational)
or one of the non-finite values that `json.Marshal` rejects. -/
inductive GoFloat where
  | finite (q : Rat)
  | nan
  | posInf
  | negInf
  deriving DecidableEq, Repr

/-- The zero value of `float64`. -/
def GoFloat.zero : GoFloat := .finite 0

/-- JSON documents (the wire format).  Numbers are represented as exact
rationals; a JSON text never denotes NaN or an infinity. -/
inductive Json where
  | null
  | bool (b : Bool)
  | num (q : Rat)
  | str (s : String)
  | arr (elems : List Json)
  | obj (fields : List (String × Json))
  deriving Repr

/-- `Message` from client.go: role and content of one chat message. -/
structure Message where
  role : String
  content : String
  deriving DecidableEq, Repr

/-- The zero value of `Message`. -/
def Message.zero : Message := ⟨"", ""⟩

/-- `RequestBody` from client.go: the chat-completion request
configuration.  `stop` is a `*string` in Go, hence `Option String`. -/
structure RequestBody where
  messages : List Message
  model : String
  temperature : GoFloat
  maxTokens : Int
  topP : GoFloat
  stream : Bool
  stop : Option String
  deriving Repr

/-- JSON encoding of one `Message` (struct field order: role, content). -/
def marshalMessage (m : Message) : Json :=
  .obj [("role", .str m.role), ("content", .str m.content)]

/-- Marshals one `float64`: Go's `json.Marshal` fails with an
unsupported-value error on NaN and the infinities. -/
def marshalFloat : GoFloat → Except String Rat
  | .finite q => .ok q
  | .nan => .error "json: unsupported value: NaN"
  | .posInf => .error "json: unsupported value: +Inf"
  | .negInf => .error "json: unsupported value: -Inf"

/-- JSON encoding of a `RequestBody`, in Go struct field order; the
`stop` field carries `omitempty` and is dropped when the pointer is
nil.  Fails exactly when a float field is non-finite. -/
def marshalRequestBody (rb : RequestBody) : Except String Json :=
  match marshalFloat rb.temperature with
  | .error e => .error e
  | .ok t =>
  match marshalFloat rb.topP with
  | .error e => .error e
  | .ok p =>
  .ok (.obj ([("messages", .arr (rb.messages.map marshalMessage)),
      ("model", .str rb.model),
      ("temperature", .num t),
      ("max_tokens", .num (rb.maxTokens : Rat)),
      ("top_p", .num p),
      ("stream", .bool rb.stream)] ++
    (match rb.stop with
     | none => []
     | some s => [("stop", .str s)])))

/-- One choice of `ChatCompletionResponse.Choices`.  `Logprobs` is a Go
`interface{}`: an arbitrary JSON value, `none` when absent or null. -/
structure Choice where
  index : Int
  message : Message
  logprobs : Option Json
  finishReason : String
  deriving Repr

/-- The zero value of `Choice`. -/
def Choice.zero : Choice := ⟨0, Message.zero, none, ""⟩

/-- `Usage` statistics of a `ChatCompletionResponse`. -/
structure Usage where
  queueTime : GoFloat
  promptTokens : Int
  promptTime : GoFloat
  completionTokens : Int
  completionTime : GoFloat
  totalTokens : Int
  totalTime : GoFloat
  deriving DecidableEq, Repr

/-- The zero value of `Usage`. -/
def Usage.zero : Usage := ⟨.finite 0, 0, .finite 0, 0, .finite 0, 0, .finite 0⟩

/-- The `XGroq` echo object of a `ChatCompletionResponse`. -/
structure XGroq where
  id : String
  deriving DecidableEq, Repr

/-- The zero value of `XGroq`. -/
def XGroq.zero : XGroq := ⟨""⟩

/-- `ChatCompletionResponse` from client.go. -/
structure ChatCompletionResponse where
  id : String
  object : String
  created : Int
  model : String
  choices : List Choice
  usage : Usage
  systemFingerprint : String
  xGroq : XGroq
  deriving Repr

/-- The zero value of `ChatCompletionResponse`. -/
def ChatCompletionResponse.zero : ChatCompletionResponse :=
  ⟨"", "", 0, "", [], Usage.zero, "", XGroq.zero⟩

/-!
Decoding, modelling `json.Decoder.Decode` into the Go structs above.
Go semantics embedded here: unknown object keys are ignored; a JSON
`null` read into a string/number field or a nested struct is a no-op
(the current value is kept); a JSON `null` read into an `interface{}`
field stores nil; a missing field keeps the zero value; a type
mismatch (or a fractional number read into an `int`) is an error.
Field decoders return `Except String (Option α)`: `none` means the
no-op case.
-/

/-- Decodes a JSON value into a Go `string` field. -/
def decodeString? : Json → Except String (Option String)
  | .null => .ok none
  | .str s => .ok (some s)
  | _ => .error "json: cannot unmarshal value into field of type string"

/-- Decodes a JSON value into a Go `int` field; a fractional number is
a decode error. -/
def decodeInt? : Json → Except String (Option Int)
  | .null => .ok none
  | .num q => if q.den = 1 then .ok (some q.num)
      else .error "json: cannot unmarshal number into field of type int"
  | _ => .error "json: cannot unmarshal value into field of type int"

/-- Decodes a JSON value into a Go `float64` field. -/
def decodeFloat? : Json → Except String (Option GoFloat)
  | .null => .ok none
  | .num q => .ok (some (.finite q))
  | _ => .error "json: cannot unmarshal value into field of type float64"

/-- Decodes a JSON value into a Go `interface\x7b\x7d` field: any value is
accepted, null stores nil. -/
def decodeAny : Json → Option Json
  | .null => none
  | j => some j

/-- Applies a field decoder and stores the result, keeping `r` on the
no-op case. -/
def setVia {σ α : Type} (dec : Json → Except String (Option α)) (v : Json)
    (r : σ) (set : α → σ) : Except String σ :=
  match dec v with
  | .error e => .error e
  | .ok none => .ok r
  | .ok (some a) => .ok (set a)

/-- Decodes `v` into a nested field whose current value is `get`,
storing the updated value with `set`. -/
def intoVia {σ τ : Type} (decInto : τ → Json → Except String τ) (v : Json)
    (get : τ) (set : τ → σ) : Except String σ :=
  match decInto get v with
  | .error e => .error e
  | .ok t => .ok (set t)

/-- Folds the key/value pairs of a JSON object through a per-key step
function, as the decoder walks an object. -/
def foldFields {σ : Type} (step : σ → String → Json → Except String σ) :
    σ → List (String × Json) → Except String σ
  | r, [] => .ok r
  | r, (k, v) :: rest =>
    match step r k v with
    | .error e => .error e
    | .ok r' => foldFields step r' rest

/-- Decoder step for one key of a `Message` object. -/
def messageStep (m : Message) (k : String) (v : Json) : Except String Message :=
  if k = "role" then setVia decodeString? v m (fun s => { m with role := s })
  else if k = "content" then setVia decodeString? v m (fun s => { m with content := s })
  else .ok m

/-- Decodes a JSON value into a `Message` whose current value is `cur`. -/
def decodeMessageInto (cur : Message) : Json → Except String Message
  | .null => .ok cur
  | .obj kvs => foldFields messageStep cur kvs
  | _ => .error "json: cannot unmarshal value into field of type Message"

/-- Decoder step for one key of a choice object. -/
def choiceStep (c : Choice) (k : String) (v : Json) : Except String Choice :=
  if k = "index" then setVia decodeInt? v c (fun n => { c with index := n })
  else if k = "message" then
    intoVia decodeMessageInto v c.message (fun m => { c with message := m })
  else if k = "logprobs" then .ok { c with logprobs := decodeAny v }
  else if k = "finish_reason" then
    setVia decodeString? v c (fun s => { c with finishReason := s })
  else .ok c

/-- Decodes one element of the choices array, starting from the zero
value. -/
def decodeChoiceElem (j : Json) : Except String Choice :=
  match j with
  | .null => .ok Choice.zero
  | .obj kvs => foldFields choiceStep Choice.zero kvs
  | _ => .error "json: cannot unmarshal value into field of type Choice"

/-- Decodes the elements of the choices array in order, stopping at
the first element that fails. -/
def decodeChoiceList : List Json → Except String (List Choice)
  | [] => .ok []
  | j :: rest =>
    match decodeChoiceElem j with
    | .error e => .error e
    | .ok c =>
      match decodeChoiceList rest with
      | .error e => .error e
      | .ok cs => .ok (c :: cs)

/-- Decodes a JSON value into the choices slice. -/
def decodeChoicesInto (cur : List Choice) : Json → Except String (List Choice)
  | .null => .ok cur
  | .arr xs => decodeChoiceList xs
  | _ => .error "json: cannot unmarshal value into field of type []Choice"

/-- Decoder step for one key of a `Usage` object. -/
def usageStep (u : Usage) (k : String) (v : Json) : Except String Usage :=
  if k = "queue_time" then setVia decodeFloat? v u (fun x => { u with queueTime := x })
  else if k = "prompt_tokens" then setVia decodeInt? v u (fun n => { u with promptTokens := n })
  else if k = "prompt_time" then setVia decodeFloat? v u (fun x => { u with promptTime := x })
  else if k = "completion_tokens" then setVia decodeInt? v u (fun n => { u with completionTokens := n })
  else if k = "completion_time" then setVia decodeFloat? v u (fun x => { u with completionTime := x })
  else if k = "total_tokens" then setVia decodeInt? v u (fun n => { u with totalTokens := n })
  else if k = "total_time" then setVia decodeFloat? v u (fun x => { u with totalTime := x })
  else .ok u

/-- Decodes a JSON value into a `Usage` whose current value is `cur`. -/
def decodeUsageInto (cur : Usage) : Json → Except String Usage
  | .null => .ok cur
  | .obj kvs => foldFields usageStep cur kvs
  | _ => .error "json: cannot unmarshal value into field of type Usage"

/-- Decoder step for one key of an `XGroq` object. -/
def xGroqStep (x : XGroq) (k : String) (v : Json) : Except String XGroq :=
  if k = "id" then setVia decodeString? v x (fun s => { x with id := s })
  else .ok x

/-- Decodes a JSON value into an `XGroq` whose current value is `cur`. -/
def decodeXGroqInto (cur : XGroq) : Json → Except String XGroq
  | .null => .ok cur
  | .obj kvs => foldFields xGroqStep cur kvs
  | _ => .error "json: cannot unmarshal value into field of type XGroq"

/-- Decoder step for one key of a `ChatCompletionResponse` object. -/
def ccrStep (r : ChatCompletionResponse) (k : String) (v : Json) :
    Except String ChatCompletionResponse :=
  if k = "id" then setVia decodeString? v r (fun s => { r with id := s })
  else if k = "object" then setVia decodeString? v r (fun s => { r with object := s })
  else if k = "created" then setVia decodeInt? v r (fun n => { r with created := n })
  else if k = "model" then setVia decodeString? v r (fun s => { r with model := s })
  else if k = "choices" then
    intoVia decodeChoicesInto v r.choices (fun cs => { r with choices := cs })
  else if k = "usage" then
    intoVia decodeUsageInto v r.usage (fun u => { r with usage := u })
  else if k = "system_fingerprint" then
    setVia decodeString? v r (fun s => { r with systemFingerprint := s })
  else if k = "x_groq" then
    intoVia decodeXGroqInto v r.xGroq (fun x => { r with xGroq := x })
  else .ok r

/-- `json.NewDecoder(resp.Body).Decode(&completion)` on an
already-parsed JSON document: decodes into a zero
`ChatCompletionResponse`. -/
def decodeChatCompletionResponse : Json → Except String ChatCompletionResponse
  | .null => .ok ChatCompletionResponse.zero
  | .obj kvs => foldFields ccrStep ChatCompletionResponse.zero kvs
  | _ => .error "json: cannot unmarshal value into ChatCompletionResponse"

/-!
The client, its construction, and the `ChatCompletion` operation.
-/

/-- One outgoing HTTP request, as `ChatCompletion` builds it.  The body
is the marshalled JSON document. -/
structure HttpRequest where
  method : String
  url : String
  headers : List (String × String)
  body : Json

/-- What the transport (`httpClient.Do`) returns for a request: a
transport-level failure, or an HTTP response with a status code and a
body.  The body is `some j` when it is a well-formed JSON document `j`
and `none` when it is not valid JSON (including an empty body). -/
inductive TransportResult where
  | transportError (msg : String)
  | httpResponse (status : Int) (body : Option Json)

/-- The behaviour of an HTTP transport. -/
def Transport : Type := HttpRequest → TransportResult

/-- The behaviour of the default transport (`&http.Client\x7b\x7d` in the
source) is a real network call, external to this repository; only its
identity matters for the claims, so it is a fixed constant. -/
def defaultTransport : Transport := fun _ => .transportError "network unavailable"

/-- `Client` from client.go. -/
structure Client where
  apiKey : String
  httpClient : Transport
  chatCompletionURL : String

/-- `NewClient` from client.go.  `httpClient` is `none` for a nil
argument; `env` is the process environment (`os.Getenv`), read here at
construction time. -/
def NewClient (httpClient : Option Transport) (apiKey : String)
    (env : String → String) : Client :=
  let hc := match httpClient with
    | none => defaultTransport
    | some h => h
  let key := if apiKey = "" then env "GROQ_API_KEY" else apiKey
  { apiKey := key
    httpClient := hc
    chatCompletionURL := "https://api.groq.com/openai/v1/chat/completions" }

/-- `Client.SetAPIKey` from client.go. -/
def SetAPIKey (c : Client) (apiKey : String) : Client :=
  { c with apiKey := apiKey }

/-- Errors `ChatCompletion` can return. -/
inductive GroqError where
  | marshalError (msg : String)
  | transportError (msg : String)
  | unexpectedStatus (code : Int)
  | decodeError (msg : String)
  deriving DecidableEq, Repr

/-- `WithModel` from client.go, as a pure update of the request body. -/
def WithModel (model : String) : RequestBody → RequestBody :=
  fun rb => { rb with model := model }

/-- `WithTemperature` from client.go. -/
def WithTemperature (temperature : GoFloat) : RequestBody → RequestBody :=
  fun rb => { rb with temperature := temperature }

/-- `WithMaxTokens` from client.go. -/
def WithMaxTokens (maxTokens : Int) : RequestBody → RequestBody :=
  fun rb => { rb with maxTokens := maxTokens }

/-- `WithTopP` from client.go. -/
def WithTopP (topP : GoFloat) : RequestBody → RequestBody :=
  fun rb => { rb with topP := topP }

/-- The default request body `ChatCompletion` builds before applying
the options. -/
def defaultRequestBody (messages : List Message) : RequestBody :=
  { messages := messages
    model := "llama3-8b-8192"
    temperature := .finite 1
    maxTokens := 1024
    topP := .finite 1
    stream := false
    stop := none }

/-- Applies the option functions in order, each mutating the shared
request body (the `for _, option := range options` loop). -/
def applyOptions (options : List (RequestBody → RequestBody))
    (rb : RequestBody) : RequestBody :=
  options.foldl (fun b o => o b) rb

/-- Outcome of one `ChatCompletion` call: the returned value (`.ok`
for a non-nil response with nil error, `.error` for a nil response
with non-nil error — the only two shapes any return statement of the
Go function produces), the HTTP requests actually issued, and the
client after the call (the method reads but never writes its
receiver). -/
structure CallResult where
  result : Except GroqError ChatCompletionResponse
  requests : List HttpRequest
  clientAfter : Client

/-- `Client.ChatCompletion` from client.go.  Builds the default body,
applies the options, marshals (propagating a marshal error before any
request is sent), sends one POST with the JSON content type and the
bearer header, rejects any status other than 200 carrying its code,
and otherwise decodes the body, propagating a decode error. -/
def ChatCompletion (c : Client) (messages : List Message)
    (options : List (RequestBody → RequestBody)) : CallResult :=
  let body := applyOptions options (defaultRequestBody messages)
  match marshalRequestBody body with
  | .error e => ⟨.error (.marshalError e), [], c⟩
  | .ok jsonData =>
    let req : HttpRequest :=
      { method := "POST"
        url := c.chatCompletionURL
        headers := [("Content-Type", "application/json"),
                    ("Authorization", "Bearer " ++ c.apiKey)]
        body := jsonData }
    match c.httpClient req with
    | .transportError e => ⟨.error (.transportError e), [req], c⟩
    | .httpResponse status body =>
      if status ≠ 200 then ⟨.error (.unexpectedStatus status), [req], c⟩
      else match body with
        | none => ⟨.error (.decodeError "invalid JSON"), [req], c⟩
        | some j =>
          match decodeChatCompletionResponse j with
          | .error e => ⟨.error (.decodeError e), [req], c⟩
          | .ok completion => ⟨.ok completion, [req], c⟩

/-- The request `ChatCompletion` sends for a given client, message
list and options, when marshalling succeeds. -/
def builtRequest (c : Client) (messages : List Message)
    (options : List (RequestBody → RequestBody)) : Option HttpRequest :=
  match marshalRequestBody (applyOptions options (defaultRequestBody messages)) with
  | .error _ => none
  | .ok jsonData => some
      { method := "POST"
        url := c.chatCompletionURL
        headers := [("Content-Type", "application/json"),
                    ("Authorization", "Bearer " ++ c.apiKey)]
        body := jsonData }

/-!
The four documented configuration adjustments as a closed type, for
quantifying over "sequences of adjustments restricted to WithModel,
WithTemperature, WithMaxTokens, WithTopP".
-/

/-- One of the four exported option constructors together with its
argument. -/
inductive Adjustment where
  | model (s : String)
  | temperature (t : GoFloat)
  | maxTokens (n : Int)
  | topP (p : GoFloat)
  deriving DecidableEq, Repr

/-- The option function an `Adjustment` denotes. -/
def Adjustment.toOption : Adjustment → (RequestBody → RequestBody)
  | .model s => WithModel s
  | .temperature t => WithTemperature t
  | .maxTokens n => WithMaxTokens n
  | .topP p => WithTopP p

/-- The configuration fields an adjustment can target. -/
inductive FieldId where
  | model
  | temperature
  | maxTokens
  | topP
  deriving DecidableEq, Repr

/-- The field an `Adjustment` targets. -/
def Adjustment.targetField : Adjustment → FieldId
  | .model _ => .model
  | .temperature _ => .temperature
  | .maxTokens _ => .maxTokens
  | .topP _ => .topP

/-!
Shape predicates: `exceptOk` of each decoder, computed directly from
the JSON value.  `ccrJsonOk` characterises exactly which documents the
response decoder accepts.
-/

/-- Whether an `Except` computation succeeded. -/
def exceptOk {ε α : Type} : Except ε α → Bool
  | .ok _ => true
  | .error _ => false

/-- Whether the value `v` is acceptable under key `k` of a `Message`
object. -/
def messageKeyOk (k : String) (v : Json) : Bool :=
  if k = "role" then exceptOk (decodeString? v)
  else if k = "content" then exceptOk (decodeString? v)
  else true

/-- Which JSON values decode into a `Message`. -/
def messageJsonOk : Json → Bool
  | .null => true
  | .obj kvs => kvs.all (fun kv => messageKeyOk kv.1 kv.2)
  | _ => false

/-- Whether the value `v` is acceptable under key `k` of a choice
object. -/
def choiceKeyOk (k : String) (v : Json) : Bool :=
  if k = "index" then exceptOk (decodeInt? v)
  else if k = "message" then messageJsonOk v
  else if k = "logprobs" then true
  else if k = "finish_reason" then exceptOk (decodeString? v)
  else true

/-- Which JSON values decode into one element of the choices array. -/
def choiceElemOk : Json → Bool
  | .null => true
  | .obj kvs => kvs.all (fun kv => choiceKeyOk kv.1 kv.2)
  | _ => false

/-- Which JSON values decode into the choices slice. -/
def choicesJsonOk : Json → Bool
  | .null => true
  | .arr xs => xs.all choiceElemOk
  | _ => false

/-- Whether the value `v` is acceptable under key `k` of a `Usage`
object. -/
def usageKeyOk (k : String) (v : Json) : Bool :=
  if k = "queue_time" then exceptOk (decodeFloat? v)
  else if k = "prompt_tokens" then exceptOk (decodeInt? v)
  else if k = "prompt_time" then exceptOk (decodeFloat? v)
  else if k = "completion_tokens" then exceptOk (decodeInt? v)
  else if k = "completion_time" then exceptOk (decodeFloat? v)
  else if k = "total_tokens" then exceptOk (decodeInt? v)
  else if k = "total_time" then exceptOk (decodeFloat? v)
  else true

/-- Which JSON values decode into a `Usage`. -/
def usageJsonOk : Json → Bool
  | .null => true
  | .obj kvs => kvs.all (fun kv => usageKeyOk kv.1 kv.2)
  | _ => false

/-- Whether the value `v` is acceptable under key `k` of an `XGroq`
object. -/
def xGroqKeyOk (k : String) (v : Json) : Bool :=
  if k = "id" then exceptOk (decodeString? v)
  else true

/-- Which JSON values decode into an `XGroq`. -/
def xGroqJsonOk : Json → Bool
  | .null => true
  | .obj kvs => kvs.all (fun kv => xGroqKeyOk kv.1 kv.2)
  | _ => false

/-- Whether the value `v` is acceptable under key `k` of a
`ChatCompletionResponse` object. -/
def ccrKeyOk (k : String) (v : Json) : Bool :=
  if k = "id" then exceptOk (decodeString? v)
  else if k = "object" then exceptOk (decodeString? v)
  else if k = "created" then exceptOk (decodeInt? v)
  else if k = "model" then exceptOk (decodeString? v)
  else if k = "choices" then choicesJsonOk v
  else if k = "usage" then usageJsonOk v
  else if k = "system_fingerprint" then exceptOk (decodeString? v)
  else if k = "x_groq" then xGroqJsonOk v
  else true

/-- Which JSON values decode into a `ChatCompletionResponse`: null, or
an object each of whose entries at a known key has a value of the
field's type.  Unknown keys and absent fields are always fine. -/
def ccrJsonOk : Json → Bool
  | .null => true
  | .obj kvs => kvs.all (fun kv => ccrKeyOk kv.1 kv.2)
  | _ => false

/-!
The expected serialized payload with the default configuration, and
concrete fixtures mirroring the repository's test
(`client_test.go`): a server answering 200 with a fixed well-formed
body, and the response it should parse to.
-/

/-- The six fields of the serialized payload when no adjustment is
applied; `stop` is absent. -/
def defaultPayloadFields (messages : List Message) : List (String × Json) :=
  [("messages", .arr (messages.map marshalMessage)),
   ("model", .str "llama3-8b-8192"),
   ("temperature", .num 1),
   ("max_tokens", .num 1024),
   ("top_p", .num 1),
   ("stream", .bool false)]

/-- The response document served by the mock server of the repository's
success test. -/
def testJson : Json :=
  .obj [("id", .str "123"), ("object", .str "text"),
        ("created", .num 1643723400),
        ("model", .str "llama3-8b-8192"),
        ("choices", .arr [.obj [("index", .num 0),
            ("message", .obj [("role", .str "user"),
                              ("content", .str "Hello, world!")]),
            ("logprobs", .null), ("finish_reason", .str "length")]]),
        ("usage", .obj [("queue_time", .num (1/10)), ("prompt_tokens", .num 5),
            ("prompt_time", .num (1/5)), ("completion_tokens", .num 10),
            ("completion_time", .num (3/10)), ("total_tokens", .num 15),
            ("total_time", .num (3/5))]),
        ("system_fingerprint", .str "1234567890"),
        ("x_groq", .obj [("id", .str "123")])]

/-- The parse of `testJson`. -/
def testResponse : ChatCompletionResponse :=
  { id := "123"
    object := "text"
    created := 1643723400
    model := "llama3-8b-8192"
    choices := [{ index := 0
                  message := { role := "user", content := "Hello, world!" }
                  logprobs := none
                  finishReason := "length" }]
    usage := { queueTime := .finite (1/10)
               promptTokens := 5
               promptTime := .finite (1/5)
               completionTokens := 10
               completionTime := .finite (3/10)
               totalTokens := 15
               totalTime := .finite (3/5) }
    systemFingerprint := "1234567890"
    xGroq := { id := "123" } }

/-- A transport that always answers 200 with `testJson`. -/
def okTransport : Transport := fun _ => .httpResponse 200 (some testJson)

/-- The test messages. -/
def testMessages : List Message := [⟨"user", "Hello, world!"⟩]

/-- The client of the success test: the mock transport and a test
key. -/
def testClient : Client := ⟨"test-key", okTransport, "http://test"⟩

/-- The request the success test's call sends. -/
def testRequest : HttpRequest :=
  { method := "POST"
    url := "http://test"
    headers := [("Content-Type", "application/json"),
                ("Authorization", "Bearer test-key")]
    body := .obj (defaultPayloadFields testMessages) }

/-- A transport that always answers 500, with a body that is even
well-formed JSON — the status check must fire before the body is
looked at. -/
def errTransport : Transport := fun _ => .httpResponse 500 (some testJson)

/-- The client of the error test. -/
def errClient : Client := ⟨"test-key", errTransport, "http://test"⟩

/-- A transport that answers 200 with a body that is not valid
JSON. -/
def badJsonTransport : Transport := fun _ => .httpResponse 200 none

/-- A transport that answers 200 with valid JSON of the wrong shape
(`id` is a number, not a string). -/
def badShapeTransport : Transport :=
  fun _ => .httpResponse 200 (some (.obj [("id", .num 5)]))

/-- The client whose server answers 200 with a wrong-shape body. -/
def badShapeClient : Client := ⟨"test-key", badShapeTransport, "http://test"⟩

/-- The client whose server answers 200 with a body that is not valid
JSON. -/
def badJsonClient : Client := ⟨"test-key", badJsonTransport, "http://test"⟩

/-!
Helper lemmas: how `ChatCompletion` reduces once the marshalling step
is settled, and the characterization of each decoder's success in
terms of the shape predicates.
-/

lemma chatCompletion_marshal_error (c : Client) (messages : List Message)
    (options : List (RequestBody → RequestBody)) (e : String)
    (hm : marshalRequestBody (applyOptions options (defaultRequestBody messages)) =
      .error e) :
    ChatCompletion c messages options = ⟨.error (.marshalError e), [], c⟩ := by
  simp [ChatCompletion, hm]

lemma chatCompletion_eq (c : Client) (messages : List Message)
    (options : List (RequestBody → RequestBody)) (req : HttpRequest)
    (h : builtRequest c messages options = some req) :
    ChatCompletion c messages options =
      match c.httpClient req with
      | .transportError e => ⟨.error (.transportError e), [req], c⟩
      | .httpResponse status body =>
        if status ≠ 200 then ⟨.error (.unexpectedStatus status), [req], c⟩
        else match body with
          | none => ⟨.error (.decodeError "invalid JSON"), [req], c⟩
          | some j =>
            match decodeChatCompletionResponse j with
            | .error e => ⟨.error (.decodeError e), [req], c⟩
            | .ok completion => ⟨.ok completion, [req], c⟩ := by
  unfold builtRequest at h
  cases hm : marshalRequestBody (applyOptions options (defaultRequestBody messages)) with
  | error e => rw [hm] at h; cases h
  | ok d =>
    rw [hm] at h
    simp only [Option.some.injEq] at h
    subst h
    simp [ChatCompletion, hm]

lemma chatCompletion_clientAfter (c : Client) (messages : List Message)
    (options : List (RequestBody → RequestBody)) :
    (ChatCompletion c messages options).clientAfter = c := by
  simp only [ChatCompletion]
  repeat first | rfl | split

lemma exceptOk_setVia {σ α : Type} (dec : Json → Except String (Option α))
    (v : Json) (r : σ) (set : α → σ) :
    exceptOk (setVia dec v r set) = exceptOk (dec v) := by
  cases h : dec v with
  | error e => simp [setVia, h, exceptOk]
  | ok o => cases o <;> simp [setVia, h, exceptOk]

lemma exceptOk_intoVia {σ τ : Type} (decInto : τ → Json → Except String τ)
    (v : Json) (get : τ) (set : τ → σ) :
    exceptOk (intoVia decInto v get set) = exceptOk (decInto get v) := by
  cases h : decInto get v with
  | error e => simp [intoVia, h, exceptOk]
  | ok t => simp [intoVia, h, exceptOk]

lemma foldFields_exceptOk {σ : Type} (step : σ → String → Json → Except String σ)
    (keyOk : String → Json → Bool)
    (hstep : ∀ (r : σ) (k : String) (v : Json), exceptOk (step r k v) = keyOk k v) :
    ∀ (kvs : List (String × Json)) (r : σ),
      exceptOk (foldFields step r kvs) = kvs.all (fun kv => keyOk kv.1 kv.2) := by
  intro kvs
  induction kvs with
  | nil => intro r; rfl
  | cons kv rest ih =>
    intro r
    obtain ⟨k, v⟩ := kv
    cases hs : step r k v with
    | error e =>
      have hk : keyOk k v = false := by rw [← hstep r k v, hs]; rfl
      simp [foldFields, hs, exceptOk, List.all_cons, hk]
    | ok r' =>
      have hk : keyOk k v = true := by rw [← hstep r k v, hs]; rfl
      simp [foldFields, hs, List.all_cons, hk, ih r']

lemma messageStep_exceptOk (m : Message) (k : String) (v : Json) :
    exceptOk (messageStep m k v) = messageKeyOk k v := by
  unfold messageStep messageKeyOk
  split_ifs <;> first | rfl | rw [exceptOk_setVia]

lemma decodeMessageInto_exceptOk (cur : Message) (j : Json) :
    exceptOk (decodeMessageInto cur j) = messageJsonOk j := by
  cases j
  case obj kvs => exact foldFields_exceptOk _ _ messageStep_exceptOk kvs cur
  all_goals rfl

lemma choiceStep_exceptOk (c : Choice) (k : String) (v : Json) :
    exceptOk (choiceStep c k v) = choiceKeyOk k v := by
  unfold choiceStep choiceKeyOk
  split_ifs <;>
    first
    | rfl
    | rw [exceptOk_setVia]
    | rw [exceptOk_intoVia, decodeMessageInto_exceptOk]

lemma decodeChoiceElem_exceptOk (j : Json) :
    exceptOk (decodeChoiceElem j) = choiceElemOk j := by
  cases j
  case obj kvs => exact foldFields_exceptOk _ _ choiceStep_exceptOk kvs Choice.zero
  all_goals rfl

lemma decodeChoiceList_exceptOk (xs : List Json) :
    exceptOk (decodeChoiceList xs) = xs.all choiceElemOk := by
  induction xs with
  | nil => rfl
  | cons j rest ih =>
    cases hj : decodeChoiceElem j with
    | error e =>
      have hk : choiceElemOk j = false := by rw [← decodeChoiceElem_exceptOk j, hj]; rfl
      simp [decodeChoiceList, hj, exceptOk, List.all_cons, hk]
    | ok c =>
      have hk : choiceElemOk j = true := by rw [← decodeChoiceElem_exceptOk j, hj]; rfl
      cases hr : decodeChoiceList rest with
      | error e =>
        have hrest : rest.all choiceElemOk = false := by rw [← ih, hr]; rfl
        simp [decodeChoiceList, hj, hr, exceptOk, List.all_cons, hk, hrest]
      | ok cs =>
        have hrest : rest.all choiceElemOk = true := by rw [← ih, hr]; rfl
        simp [decodeChoiceList, hj, hr, exceptOk, List.all_cons, hk, hrest]

lemma decodeChoicesInto_exceptOk (cur : List Choice) (j : Json) :
    exceptOk (decodeChoicesInto cur j) = choicesJsonOk j := by
  cases j
  case arr xs => exact decodeChoiceList_exceptOk xs
  all_goals rfl

lemma usageStep_exceptOk (u : Usage) (k : String) (v : Json) :
    exceptOk (usageStep u k v) = usageKeyOk k v := by
  unfold usageStep usageKeyOk
  split_ifs <;> first | rfl | rw [exceptOk_setVia]

lemma decodeUsageInto_exceptOk (cur : Usage) (j : Json) :
    exceptOk (decodeUsageInto cur j) = usageJsonOk j := by
  cases j
  case obj kvs => exact foldFields_exceptOk _ _ usageStep_exceptOk kvs cur
  all_goals rfl

lemma xGroqStep_exceptOk (x : XGroq) (k : String) (v : Json) :
    exceptOk (xGroqStep x k v) = xGroqKeyOk k v := by
  unfold xGroqStep xGroqKeyOk
  split_ifs <;> first | rfl | rw [exceptOk_setVia]

lemma decodeXGroqInto_exceptOk (cur : XGroq) (j : Json) :
    exceptOk (decodeXGroqInto cur j) = xGroqJsonOk j := by
  cases j
  case obj kvs => exact foldFields_exceptOk _ _ xGroqStep_exceptOk kvs cur
  all_goals rfl

lemma ccrStep_exceptOk (r : ChatCompletionResponse) (k : String) (v : Json) :
    exceptOk (ccrStep r k v) = ccrKeyOk k v := by
  unfold ccrStep ccrKeyOk
  split_ifs <;>
    first
    | rfl
    | rw [exceptOk_setVia]
    | rw [exceptOk_intoVia, decodeChoicesInto_exceptOk]
    | rw [exceptOk_intoVia, decodeUsageInto_exceptOk]
    | rw [exceptOk_intoVia, decodeXGroqInto_exceptOk]

lemma decodeCCR_exceptOk (j : Json) :
    exceptOk (decodeChatCompletionResponse j) = ccrJsonOk j := by
  cases j
  case obj kvs =>
    exact foldFields_exceptOk _ _ ccrStep_exceptOk kvs ChatCompletionResponse.zero
  all_goals rfl

lemma adjustment_messages (a : Adjustment) (rb : RequestBody) :
    (a.toOption rb).messages = rb.messages := by
  cases a <;> rfl

lemma applyAdjustments_messages (adjs : List Adjustment) (rb : RequestBody) :
    (applyOptions (adjs.map Adjustment.toOption) rb).messages = rb.messages := by
  induction adjs generalizing rb with
  | nil => rfl
  | cons a rest ih => exact (ih (a.toOption rb)).trans (adjustment_messages a rb)

lemma marshal_messages_field (rb : RequestBody) (fields : List (String × Json))
    (h : marshalRequestBody rb = .ok (.obj fields)) :
    fields.lookup "messages" = some (.arr (rb.messages.map marshalMessage)) := by
  unfold marshalRequestBody at h
  cases ht : marshalFloat rb.temperature with
  | error e => simp [ht] at h
  | ok t =>
    cases hp : marshalFloat rb.topP with
    | error e => simp [ht, hp] at h
    | ok p =>
      simp only [ht, hp, Except.ok.injEq, Json.obj.injEq] at h
      subst h
      rfl

/-!
The claims.
-/

/-- C1: when the transport answers HTTP 200 with a body that decodes
as the `ChatCompletionResponse` shape, `ChatCompletion` returns
exactly the decoded response with no error (and the one request it
sent), so every field of the result equals the corresponding JSON
value of the body. -/
theorem chatCompletion_ok_of_status200_and_decode (c : Client)
    (messages : List Message) (options : List (RequestBody → RequestBody))
    (req : HttpRequest) (j : Json) (r : ChatCompletionResponse)
    (hreq : builtRequest c messages options = some req)
    (ht : c.httpClient req = .httpResponse 200 (some j))
    (hd : decodeChatCompletionResponse j = .ok r) :
    ChatCompletion c messages options = ⟨.ok r, [req], c⟩ := by
  rw [chatCompletion_eq c messages options req hreq, ht]
  simp [hd]

/-- Witness for C1, on the repository's own success test: the mock
body parses to `testResponse`, whose ID is the literal "123" and whose
single choice's finish reason is "length". -/
theorem chatCompletion_ok_of_status200_and_decode_witness :
    ChatCompletion testClient testMessages [] =
      ⟨.ok testResponse, [testRequest], testClient⟩ ∧
    testResponse.id = "123" ∧
    testResponse.choices.map Choice.finishReason = ["length"] :=
  ⟨chatCompletion_ok_of_status200_and_decode testClient testMessages []
      testRequest testJson testResponse rfl rfl rfl, rfl, rfl⟩

/-- C2: when the transport answers any status other than 200,
`ChatCompletion` fails with an error carrying that numeric status and
a nil response, whatever the body holds — the body is never decoded. -/
theorem chatCompletion_error_of_non200 (c : Client)
    (messages : List Message) (options : List (RequestBody → RequestBody))
    (req : HttpRequest) (status : Int) (body : Option Json)
    (hreq : builtRequest c messages options = some req)
    (ht : c.httpClient req = .httpResponse status body)
    (hs : status ≠ 200) :
    ChatCompletion c messages options =
      ⟨.error (.unexpectedStatus status), [req], c⟩ := by
  rw [chatCompletion_eq c messages options req hreq, ht]
  simp [hs]

/-- Witness for C2: a mock server answering 500 — with a body that
would even decode — yields the status-code failure. -/
theorem chatCompletion_error_of_non200_witness :
    ChatCompletion errClient testMessages [] =
      ⟨.error (.unexpectedStatus 500), [testRequest], errClient⟩ :=
  chatCompletion_error_of_non200 errClient testMessages [] testRequest 500
    (some testJson) rfl rfl (by decide)

/-- C3: with no adjustments the serialized payload carries the default
configuration — model "llama3-8b-8192", temperature 1, max_tokens
1024, top_p 1, stream false — and no "stop" key at all. -/
theorem chatCompletion_default_payload (c : Client) (messages : List Message) :
    builtRequest c messages [] = some
      { method := "POST"
        url := c.chatCompletionURL
        headers := [("Content-Type", "application/json"),
                    ("Authorization", "Bearer " ++ c.apiKey)]
        body := .obj (defaultPayloadFields messages) } ∧
    "stop" ∉ (defaultPayloadFields messages).map Prod.fst := by
  constructor
  · rfl
  · simp [defaultPayloadFields]

/-- C4: any sequence of the four documented adjustments leaves the
message list untouched, and the serialized payload's "messages" field
is exactly the input messages in order, each with its role and content
verbatim. -/
theorem chatCompletion_messages_verbatim (messages : List Message)
    (adjs : List Adjustment) :
    (applyOptions (adjs.map Adjustment.toOption) (defaultRequestBody messages)).messages
        = messages ∧
    (∀ fields : List (String × Json),
       marshalRequestBody
           (applyOptions (adjs.map Adjustment.toOption) (defaultRequestBody messages)) =
         .ok (.obj fields) →
       fields.lookup "messages" = some (.arr (messages.map marshalMessage))) := by
  constructor
  · exact applyAdjustments_messages adjs (defaultRequestBody messages)
  · intro fields h
    rw [marshal_messages_field _ fields h,
        applyAdjustments_messages adjs (defaultRequestBody messages)]
    rfl

/-- Witness for C4: applying `WithModel` leaves the test messages in
the payload verbatim. -/
theorem chatCompletion_messages_verbatim_witness :
    (applyOptions ([Adjustment.model "mixtral"].map Adjustment.toOption)
        (defaultRequestBody testMessages)).messages = testMessages ∧
    List.lookup "messages"
        [("messages", Json.arr (testMessages.map marshalMessage)),
         ("model", Json.str "mixtral"), ("temperature", Json.num 1),
         ("max_tokens", Json.num 1024), ("top_p", Json.num 1),
         ("stream", Json.bool false)] =
      some (.arr (testMessages.map marshalMessage)) :=
  ⟨(chatCompletion_messages_verbatim testMessages [Adjustment.model "mixtral"]).1,
   (chatCompletion_messages_verbatim testMessages [Adjustment.model "mixtral"]).2 _ rfl⟩

/-- C5: adjustments compose last-write-wins on the same field and
commute across different fields. -/
theorem adjustments_last_write_wins_and_commute :
    (∀ (a b : Adjustment) (rb : RequestBody),
       a.targetField = b.targetField →
       b.toOption (a.toOption rb) = b.toOption rb) ∧
    (∀ (a b : Adjustment) (rb : RequestBody),
       a.targetField ≠ b.targetField →
       b.toOption (a.toOption rb) = a.toOption (b.toOption rb)) := by
  constructor
  · intro a b rb h
    cases a <;> cases b <;> first | rfl | simp [Adjustment.targetField] at h
  · intro a b rb h
    cases a <;> cases b <;> first | rfl | exact absurd rfl h

/-- Witness for C5: a later `WithModel` overrides an earlier one, and
`WithModel` commutes with `WithMaxTokens`. -/
theorem adjustments_last_write_wins_and_commute_witness :
    Adjustment.toOption (.model "b")
        (Adjustment.toOption (.model "a") (defaultRequestBody testMessages)) =
      Adjustment.toOption (.model "b") (defaultRequestBody testMessages) ∧
    Adjustment.toOption (.maxTokens 5)
        (Adjustment.toOption (.model "a") (defaultRequestBody testMessages)) =
      Adjustment.toOption (.model "a")
        (Adjustment.toOption (.maxTokens 5) (defaultRequestBody testMessages)) :=
  ⟨adjustments_last_write_wins_and_commute.1 (.model "a") (.model "b") _ rfl,
   adjustments_last_write_wins_and_commute.2 (.model "a") (.maxTokens 5) _ (by decide)⟩

/-- C6: each of the four adjustment functions sets exactly its field
and leaves every other field of the request body (messages included)
unchanged. -/
theorem with_functions_set_exactly_one_field (s : String) (t : GoFloat)
    (n : Int) (p : GoFloat) (rb : RequestBody) :
    ((WithModel s rb).model = s ∧
     (WithModel s rb).messages = rb.messages ∧
     (WithModel s rb).temperature = rb.temperature ∧
     (WithModel s rb).maxTokens = rb.maxTokens ∧
     (WithModel s rb).topP = rb.topP ∧
     (WithModel s rb).stream = rb.stream ∧
     (WithModel s rb).stop = rb.stop) ∧
    ((WithTemperature t rb).temperature = t ∧
     (WithTemperature t rb).messages = rb.messages ∧
     (WithTemperature t rb).model = rb.model ∧
     (WithTemperature t rb).maxTokens = rb.maxTokens ∧
     (WithTemperature t rb).topP = rb.topP ∧
     (WithTemperature t rb).stream = rb.stream ∧
     (WithTemperature t rb).stop = rb.stop) ∧
    ((WithMaxTokens n rb).maxTokens = n ∧
     (WithMaxTokens n rb).messages = rb.messages ∧
     (WithMaxTokens n rb).model = rb.model ∧
     (WithMaxTokens n rb).temperature = rb.temperature ∧
     (WithMaxTokens n rb).topP = rb.topP ∧
     (WithMaxTokens n rb).stream = rb.stream ∧
     (WithMaxTokens n rb).stop = rb.stop) ∧
    ((WithTopP p rb).topP = p ∧
     (WithTopP p rb).messages = rb.messages ∧
     (WithTopP p rb).model = rb.model ∧
     (WithTopP p rb).temperature = rb.temperature ∧
     (WithTopP p rb).maxTokens = rb.maxTokens ∧
     (WithTopP p rb).stream = rb.stream ∧
     (WithTopP p rb).stop = rb.stop) :=
  ⟨⟨rfl, rfl, rfl, rfl, rfl, rfl, rfl⟩, ⟨rfl, rfl, rfl, rfl, rfl, rfl, rfl⟩,
   ⟨rfl, rfl, rfl, rfl, rfl, rfl, rfl⟩, ⟨rfl, rfl, rfl, rfl, rfl, rfl, rfl⟩⟩

/-- C7: `NewClient` is total; a nil transport argument is replaced by
the default transport, a supplied transport is kept, an empty
credential is replaced by the `GROQ_API_KEY` environment value read at
construction, and a non-empty credential is kept verbatim.  The
endpoint URL is always the fixed completion URL. -/
theorem newClient_construction (hc? : Option Transport) (key : String)
    (env : String → String) :
    (NewClient hc? key env).chatCompletionURL =
        "https://api.groq.com/openai/v1/chat/completions" ∧
    (hc? = none → (NewClient hc? key env).httpClient = defaultTransport) ∧
    (∀ hc, hc? = some hc → (NewClient hc? key env).httpClient = hc) ∧
    (key = "" → (NewClient hc? key env).apiKey = env "GROQ_API_KEY") ∧
    (key ≠ "" → (NewClient hc? key env).apiKey = key) := by
  refine ⟨rfl, ?_, ?_, ?_, ?_⟩
  · intro h; subst h; rfl
  · intro hc h; subst h; rfl
  · intro h; subst h; rfl
  · intro h; simp [NewClient, h]

/-- Witness for C7: construction with nil transport and empty key
yields the default transport and the environment credential;
construction with explicit arguments keeps them. -/
theorem newClient_construction_witness :
    (NewClient none "" (fun _ => "env-key")).apiKey = "env-key" ∧
    (NewClient none "" (fun _ => "env-key")).httpClient = defaultTransport ∧
    (NewClient (some okTransport) "k" (fun _ => "env-key")).apiKey = "k" ∧
    (NewClient (some okTransport) "k" (fun _ => "env-key")).httpClient = okTransport :=
  ⟨(newClient_construction none "" (fun _ => "env-key")).2.2.2.1 rfl,
   (newClient_construction none "" (fun _ => "env-key")).2.1 rfl,
   (newClient_construction (some okTransport) "k" (fun _ => "env-key")).2.2.2.2
     (by decide),
   (newClient_construction (some okTransport) "k" (fun _ => "env-key")).2.2.1
     okTransport rfl⟩

/-- C8: on a 200 response, a shape mismatch propagates the decode
error with a nil response, an unparsable body fails likewise, and the
decoder succeeds exactly on the documents `ccrJsonOk` accepts — in
particular, removing any key from an accepted object keeps it
accepted: every field is optional. -/
theorem decode_failure_characterization :
    (∀ (c : Client) (messages : List Message)
       (options : List (RequestBody → RequestBody)) (req : HttpRequest)
       (j : Json) (e : String),
       builtRequest c messages options = some req →
       c.httpClient req = .httpResponse 200 (some j) →
       decodeChatCompletionResponse j = .error e →
       ChatCompletion c messages options = ⟨.error (.decodeError e), [req], c⟩) ∧
    (∀ (c : Client) (messages : List Message)
       (options : List (RequestBody → RequestBody)) (req : HttpRequest),
       builtRequest c messages options = some req →
       c.httpClient req = .httpResponse 200 none →
       ChatCompletion c messages options =
         ⟨.error (.decodeError "invalid JSON"), [req], c⟩) ∧
    (∀ j : Json, exceptOk (decodeChatCompletionResponse j) = ccrJsonOk j) ∧
    (∀ (kvs : List (String × Json)) (k : String),
       ccrJsonOk (.obj kvs) = true →
       ccrJsonOk (.obj (kvs.filter (fun kv => !(kv.1 == k)))) = true) := by
  refine ⟨?_, ?_, decodeCCR_exceptOk, ?_⟩
  · intro c messages options req j e hreq ht hd
    rw [chatCompletion_eq c messages options req hreq, ht]
    simp [hd]
  · intro c messages options req hreq ht
    rw [chatCompletion_eq c messages options req hreq, ht]
    simp
  · intro kvs k h
    simp only [ccrJsonOk, List.all_eq_true] at h ⊢
    intro kv hkv
    exact h kv (List.mem_filter.mp hkv).1

/-- Witness for C8: a 200 answer whose `id` is a number fails with the
decode error; a 200 answer that is not JSON fails; and erasing a key
from an accepted object keeps it accepted. -/
theorem decode_failure_characterization_witness :
    ChatCompletion badShapeClient testMessages [] =
      ⟨.error (.decodeError "json: cannot unmarshal value into field of type string"),
       [testRequest], badShapeClient⟩ ∧
    ChatCompletion badJsonClient testMessages [] =
      ⟨.error (.decodeError "invalid JSON"), [testRequest], badJsonClient⟩ ∧
    ccrJsonOk (.obj (([(("id" : String), Json.str "123"),
        (("created" : String), Json.num 7)]).filter
      (fun kv => !(kv.1 == "created")))) = true :=
  ⟨decode_failure_characterization.1 badShapeClient testMessages [] testRequest
      (.obj [("id", .num 5)]) _ rfl rfl rfl,
   decode_failure_characterization.2.1 badJsonClient testMessages [] testRequest rfl rfl,
   decode_failure_characterization.2.2.2
      [(("id" : String), Json.str "123"), (("created" : String), Json.num 7)]
      "created" rfl⟩

/-- C9: a call either returns a response with no error or an error
with no response, and when marshalling the payload fails (a non-finite
float) the marshal error is returned with no request ever sent. -/
theorem chatCompletion_no_partial_success :
    (∀ (c : Client) (messages : List Message)
       (options : List (RequestBody → RequestBody)),
       (∃ r, (ChatCompletion c messages options).result = .ok r) ∨
       (∃ e, (ChatCompletion c messages options).result = .error e)) ∧
    (∀ (c : Client) (messages : List Message)
       (options : List (RequestBody → RequestBody)) (e : String),
       marshalRequestBody (applyOptions options (defaultRequestBody messages)) =
         .error e →
       ChatCompletion c messages options = ⟨.error (.marshalError e), [], c⟩) := by
  constructor
  · intro c messages options
    cases h : (ChatCompletion c messages options).result with
    | ok r => exact .inl ⟨r, rfl⟩
    | error e => exact .inr ⟨e, rfl⟩
  · intro c messages options e hm
    exact chatCompletion_marshal_error c messages options e hm

/-- Witness for C9: a NaN temperature makes serialization fail; the
error is returned and the request list is empty. -/
theorem chatCompletion_no_partial_success_witness :
    ChatCompletion testClient testMessages [WithTemperature .nan] =
      ⟨.error (.marshalError "json: unsupported value: NaN"), [], testClient⟩ :=
  chatCompletion_no_partial_success.2 testClient testMessages
    [WithTemperature .nan] _ rfl

/-- C10: `SetAPIKey` stores the given string verbatim — the empty
string included, with no environment fallback — and leaves the
transport and the endpoint URL unchanged; and `ChatCompletion`, the
only other method, never mutates the client. -/
theorem setAPIKey_frame (c : Client) (k : String) :
    (SetAPIKey c k).apiKey = k ∧
    (SetAPIKey c k).httpClient = c.httpClient ∧
    (SetAPIKey c k).chatCompletionURL = c.chatCompletionURL ∧
    (SetAPIKey c "").apiKey = "" ∧
    (∀ (messages : List Message) (options : List (RequestBody → RequestBody)),
       (ChatCompletion c messages options).clientAfter = c) :=
  ⟨rfl, rfl, rfl, rfl, fun messages options =>
    chatCompletion_clientAfter c messages options⟩

end Groq
